import Mathlib

/-!
Verification development for the partners-card-sdk purchase orchestration.

The TypeScript sources (src/services.ts, src/types.ts, src/utils.ts,
src/chains.ts) are shallowly embedded below: pure helpers become Lean
functions, JS numbers carrying money amounts become exact rationals,
epoch-millisecond instants become natural numbers, uint256 chain values
become naturals, and every external call made by the orchestrator
(backend API, token contract, card contract) is supplied through an
explicit environment record so that the orchestrator itself is a pure
function from that environment to an outcome together with the trace of
chain interactions it performed.
-/

set_option maxRecDepth 4000

namespace ZebecCard

/-! ## utils.ts -/

/-- Character class of the regex fragment `[a-zA-Z0-9]`. -/
def isAlphaNumChar (c : Char) : Bool :=
  c.isAlpha || c.isDigit

/-- utils.ts `isAlphaNumeric`: tests the anchored regex `[a-zA-Z0-9]+`,
i.e. the string is nonempty and every character is ASCII alphanumeric. -/
def isAlphaNumeric (s : String) : Bool :=
  !s.isEmpty && s.toList.all isAlphaNumChar

/-- Character class `[a-zA-Z0-9._+-]` of the email regex's local part. -/
def isLocalChar (c : Char) : Bool :=
  isAlphaNumChar c || c = '.' || c = '_' || c = '+' || c = '-'

/-- Character class `[a-zA-Z0-9.-]` of the email regex's domain part. -/
def isDomainChar (c : Char) : Bool :=
  isAlphaNumChar c || c = '.' || c = '-'

/-- utils.ts `isEmailValid`: tests the anchored regex
`[a-zA-Z0-9._+-]+@[a-zA-Z0-9.-]+\.[a-zA-Z]{2,10}`.  A match requires a
unique `@`; the final `\.[a-zA-Z]{2,10}` is anchored at the end and the
letters-only segment cannot contain a dot, so the separating dot of any
match is necessarily the last dot of the domain, the prefix before that
last dot must be a nonempty run over the domain class, and the suffix
after it must be 2 to 10 ASCII letters. -/
def isEmailValid (s : String) : Bool :=
  match s.toList.splitOn '@' with
  | [lpart, domain] =>
    !lpart.isEmpty && lpart.all isLocalChar &&
      (let parts := domain.splitOn '.'
       decide (2 ≤ parts.length) &&
       !(List.intercalate ['.'] parts.dropLast).isEmpty &&
       domain.all isDomainChar &&
       (match parts.getLast? with
        | some tld => decide (2 ≤ tld.length) && decide (tld.length ≤ 10) && tld.all Char.isAlpha
        | none => false))
  | _ => false

/-- utils.ts `hasMinLen`. -/
def hasMinLen (value : String) (len : Nat) : Bool :=
  len ≤ value.length

/-- utils.ts `hasMaxLen`. -/
def hasMaxLen (value : String) (len : Nat) : Bool :=
  value.length ≤ len

/-- utils.ts `hasLen`: the `max` argument is optional, and a supplied
`0` is falsy in JS, so the upper bound is enforced only for a present
nonzero `max`. -/
def hasLen (value : String) (min : Nat) (max? : Option Nat) : Bool :=
  match max? with
  | some max => if max ≠ 0 then hasMinLen value min && hasMaxLen value max else hasMinLen value min
  | none => hasMinLen value min

/-- JS `String.prototype.toLowerCase` (character-wise lowering; the
orchestrator only compares the result against the ASCII literal
"usdc"). -/
def toLowerStr (s : String) : String :=
  ⟨s.data.map Char.toLower⟩

/-- Milliseconds in a UTC day. -/
def msPerDay : Nat := 86400000

/-- Civil (proleptic Gregorian) date from a count of days since
1970-01-01, for nonnegative day counts: returns
(year, month 1..12, day-of-month 1..31). -/
def civilFromEpochDays (z : Nat) : Nat × Nat × Nat :=
  let z2 := z + 719468
  let era := z2 / 146097
  let doe := z2 % 146097
  let yoe := (doe - doe / 1460 + doe / 36524 - doe / 146096) / 365
  let doy := doe - (365 * yoe + yoe / 4 - yoe / 100)
  let mp := (5 * doy + 2) / 153
  let d := doy - (153 * mp + 2) / 5 + 1
  let m := if mp < 10 then mp + 3 else mp - 9
  let y := if m ≤ 2 then era * 400 + yoe + 1 else era * 400 + yoe
  (y, m, d)

/-- JS `Date.prototype.getUTCFullYear` on an epoch-millisecond instant. -/
def getUTCFullYear (ms : Nat) : Nat :=
  (civilFromEpochDays (ms / msPerDay)).1

/-- JS `Date.prototype.getUTCMonth` (0-based month) on an
epoch-millisecond instant. -/
def getUTCMonth (ms : Nat) : Nat :=
  (civilFromEpochDays (ms / msPerDay)).2.1 - 1

/-- JS `Date.prototype.getUTCDate` (day of month, 1..31) on an
epoch-millisecond instant. -/
def getUTCDate (ms : Nat) : Nat :=
  (civilFromEpochDays (ms / msPerDay)).2.2

/-- JS `Date.prototype.getUTCDay` (day of week, 0 = Sunday) on an
epoch-millisecond instant; 1970-01-01 was a Thursday (4). -/
def getUTCDay (ms : Nat) : Nat :=
  (ms / msPerDay + 4) % 7

/-- utils.ts `areDatesOfSameDay`: compares `getUTCDay` (day of WEEK),
`getUTCMonth` and `getUTCFullYear` of the two instants. -/
def areDatesOfSameDay (date1 date2 : Nat) : Bool :=
  getUTCDay date1 == getUTCDay date2 &&
  getUTCMonth date1 == getUTCMonth date2 &&
  getUTCFullYear date1 == getUTCFullYear date2

/-- Modelled from the spec's words (for comparison with
`areDatesOfSameDay`): two UTC instants fall on the same calendar day
exactly when they agree on day-of-month, month and year. -/
def sameCalendarDayUTC (date1 date2 : Nat) : Bool :=
  getUTCDate date1 == getUTCDate date2 &&
  getUTCMonth date1 == getUTCMonth date2 &&
  getUTCFullYear date1 == getUTCFullYear date2

/-- Rounding of `100 * x` to the nearest integer, ties upward:
`100 * x + 1 / 2 = (200 * x.num + x.den) / (2 * x.den)` exactly, and
flooring that fraction is integer floor-division of its numerator by
its (positive) denominator. -/
def roundHundred (x : ℚ) : ℤ :=
  (200 * x.num + x.den).fdiv (2 * x.den)

/-- utils.ts `formatAmount`: `Number(Number(amount).toFixed(2))`.
Amounts are modelled as exact rationals; rounding to two decimal places
is exact decimal rounding (ties upward), which agrees with `toFixed`
for the nonnegative amounts this SDK handles. -/
def formatAmount (amount : ℚ) : ℚ :=
  Rat.divInt (roundHundred amount) 100

/-! ## types.ts — Recipient and its validating constructor -/

/-- Country codes of types.ts `ALL_COUNTRIES_AND_CODE` (the names paired
with the codes there are never consulted; `Recipient.create` only tests
membership of the code). -/
def ALL_COUNTRY_CODES : List String :=
  ["ABW", "AFG", "AGO", "AIA", "ALA", "ALB", "AND", "ARE", "ARG", "ARM", "ASM", "ATA",
   "ATF", "ATG", "AUS", "AUT", "AZE", "BDI", "BEL", "BEN", "BES", "BFA", "BGD", "BGR",
   "BHR", "BHS", "BIH", "BLM", "BLR", "BLZ", "BMU", "BOL", "BRA", "BRB", "BRN", "BTN",
   "BVT", "BWA", "CAF", "CAN", "CCK", "CHE", "CHL", "CHN", "CIV", "CMR", "COD", "COG",
   "COK", "COL", "COM", "CPV", "CRI", "CUB", "CUW", "CXR", "CYM", "CYP", "CZE", "DEU",
   "DJI", "DMA", "DNK", "DOM", "DZA", "ECU", "EGY", "ERI", "ESH", "ESP", "EST", "ETH",
   "FIN", "FJI", "FLK", "FRA", "FRO", "FSM", "GAB", "GBR", "GEO", "GGY", "GHA", "GIB",
   "GIN", "GLP", "GMB", "GNB", "GNQ", "GRC", "GRD", "GRL", "GTM", "GUF", "GUM", "GUY",
   "HKG", "HMD", "HND", "HRV", "HTI", "HUN", "IDN", "IMN", "IND", "IOT", "IRL", "IRN",
   "IRQ", "ISL", "ISR", "ITA", "JAM", "JEY", "JOR", "JPN", "KAZ", "KEN", "KGZ", "KHM",
   "KIR", "KNA", "KOR", "KWT", "LAO", "LBN", "LBR", "LBY", "LCA", "LIE", "LKA", "LSO",
   "LTU", "LUX", "LVA", "MAC", "MAF", "MAR", "MCO", "MDA", "MDG", "MDV", "MEX", "MHL",
   "MKD", "MLI", "MLT", "MMR", "MNE", "MNG", "MNP", "MOZ", "MRT", "MSR", "MTQ", "MUS",
   "MWI", "MYS", "MYT", "NAM", "NCL", "NER", "NFK", "NGA", "NIC", "NIU", "NLD", "NOR",
   "NPL", "NRU", "NZL", "OMN", "PAK", "PAN", "PCN", "PER", "PHL", "PLW", "PNG", "POL",
   "PRI", "PRK", "PRT", "PRY", "PSE", "PYF", "QAT", "REU", "ROU", "RUS", "RWA", "SAU",
   "SDN", "SEN", "SGP", "SGS", "SHN", "SJM", "SLB", "SLE", "SLV", "SMR", "SOM", "SPM",
   "SRB", "SSD", "STP", "SUR", "SVK", "SVN", "SWE", "SWZ", "SXM", "SYC", "SYR", "TCA",
   "TCD", "TGO", "THA", "TJK", "TKL", "TKM", "TLS", "TON", "TTO", "TUN", "TUR", "TUV",
   "TWN", "TZA", "UGA", "UKR", "UMI", "URY", "USA", "UZB", "VAT", "VCT", "VEN", "VGB",
   "VIR", "VNM", "VUT", "WLF", "WSM", "YEM", "ZAF", "ZMB", "ZWE"]

/-- errors.ts `ValidationError`, one constructor per validation message
of `Recipient.create` (the message text is recovered by
`ValidationError.message`). -/
inductive ValidationError where
  | participantLen
  | participantAlnum
  | firstNameLen
  | lastNameLen
  | emailLen
  | emailFormat
  | languageRequired
  | mobilePhoneLen
  | cityLen
  | stateLen
  | badCountryCode
  | postalCodeLen
  | address1Len
  | address2Len
  deriving Repr, DecidableEq

/-- Message carried by each `ValidationError` thrown by
`Recipient.create` in types.ts. -/
def ValidationError.message : ValidationError → String
  | .participantLen => "Participants must be of 1 to 20 characters."
  | .participantAlnum => "Participants must only contains alpha numeric characters"
  | .firstNameLen => "Firstname must be within 1 to 50 characters."
  | .lastNameLen => "Lastname must be within 1 to 50 characters."
  | .emailLen => "Email must be within 1 to 80 characters."
  | .emailFormat => "Email address must be a valid email."
  | .languageRequired => "Language code is required"
  | .mobilePhoneLen => "Mobile phone number must be within 1 to 20 characters."
  | .cityLen => "City must be within 1 to 50 characters."
  | .stateLen => "State must be within 1 to 50 characters."
  | .badCountryCode => "CountryCode must be a valid supported ISO 3166-1 alpha-3 code"
  | .postalCodeLen => "Postal code must be within 1 to 20 characters."
  | .address1Len => "Address line 1 must be within 1 to 50 characters."
  | .address2Len => "Address line 2 must be within 1 to 50 characters."

/-- types.ts `Recipient`: all fields readonly, set once by the private
constructor. -/
structure Recipient where
  participantId : String
  firstName : String
  lastName : String
  emailAddress : String
  address1 : String
  address2 : String
  city : String
  state : String
  postalCode : String
  countryCode : String
  language : String
  mobilePhone : String
  deriving Repr, DecidableEq

/-- types.ts `Recipient.create`: runs the validation checks in source
order and either throws the first violated check's `ValidationError` or
constructs the `Recipient`.  JS truthiness notes: `if (!language)`
rejects exactly the empty string; `address2 && !hasLen(address2, 1, 50)`
skips the length check when `address2` is absent or the empty string;
and the constructed field is `address2 ?? "N/A"`, which substitutes
`"N/A"` only when `address2` is absent (nullish), not when empty. -/
def recipientCreate (participantId firstName lastName emailAddress mobilePhone language city
    state postalCode countryCode address1 : String) (address2 : Option String) :
    Except ValidationError Recipient :=
  if !hasLen participantId 1 (some 20) then .error .participantLen
  else if !isAlphaNumeric participantId then .error .participantAlnum
  else if !hasLen firstName 1 (some 50) then .error .firstNameLen
  else if !hasLen lastName 1 (some 50) then .error .lastNameLen
  else if !hasLen emailAddress 1 (some 80) then .error .emailLen
  else if !isEmailValid emailAddress then .error .emailFormat
  else if language = "" then .error .languageRequired
  else if !hasLen mobilePhone 1 (some 20) then .error .mobilePhoneLen
  else if !hasLen city 1 (some 35) then .error .cityLen
  else if !hasLen state 1 (some 50) then .error .stateLen
  else if !(ALL_COUNTRY_CODES.contains countryCode) then .error .badCountryCode
  else if !hasLen postalCode 1 (some 20) then .error .postalCodeLen
  else if !hasLen address1 1 (some 50) then .error .address1Len
  else if (match address2 with
           | some a => a ≠ "" && !hasLen a 1 (some 50)
           | none => false) then .error .address2Len
  else .ok { participantId, firstName, lastName, emailAddress,
             address1,
             address2 := (match address2 with | some a => a | none => "N/A"),
             city, state, postalCode, countryCode, language, mobilePhone }

/-- Conjunction of exactly the checks `recipientCreate` performs (the
valid inputs of the constructor as the source defines them). -/
def recipientValid (participantId firstName lastName emailAddress mobilePhone language city
    state postalCode countryCode address1 : String) (address2 : Option String) : Bool :=
  hasLen participantId 1 (some 20) && isAlphaNumeric participantId &&
  hasLen firstName 1 (some 50) && hasLen lastName 1 (some 50) &&
  hasLen emailAddress 1 (some 80) && isEmailValid emailAddress &&
  !(language = "") && hasLen mobilePhone 1 (some 20) &&
  hasLen city 1 (some 35) && hasLen state 1 (some 50) &&
  ALL_COUNTRY_CODES.contains countryCode && hasLen postalCode 1 (some 20) &&
  hasLen address1 1 (some 50) &&
  !(match address2 with
    | some a => a ≠ "" && !hasLen a 1 (some 50)
    | none => false)

/-- Modelled from the claim's words (for comparison with
`recipientValid`): the field constraints as the claim states them —
in particular `state` bounded by 1 to 20 characters, and the
address-2 bound enforced whenever the argument is present. -/
def claimedRecipientValid (participantId firstName lastName emailAddress mobilePhone language
    city state postalCode countryCode address1 : String) (address2 : Option String) : Bool :=
  hasLen participantId 1 (some 20) && isAlphaNumeric participantId &&
  hasLen firstName 1 (some 50) && hasLen lastName 1 (some 50) &&
  hasLen emailAddress 1 (some 80) && isEmailValid emailAddress &&
  !(language = "") && hasLen mobilePhone 1 (some 20) &&
  hasLen city 1 (some 35) && hasLen state 1 (some 20) &&
  ALL_COUNTRY_CODES.contains countryCode && hasLen postalCode 1 (some 20) &&
  hasLen address1 1 (some 50) &&
  (match address2 with
   | some a => hasLen a 1 (some 50)
   | none => true)

/-! ## chains.ts -/

/-- chains.ts `SupportedEvmChain`. -/
inductive SupportedEvmChain where
  | Mainnet
  | Sepolia
  | Base
  | Bsc
  | BscTestnet
  | Polygon
  | PolygonAmoy
  deriving Repr, DecidableEq

/-- Numeric chain id of each `SupportedEvmChain` member. -/
def SupportedEvmChain.chainId : SupportedEvmChain → Int
  | .Mainnet => 1
  | .Sepolia => 11155111
  | .Base => 8453
  | .Bsc => 56
  | .BscTestnet => 97
  | .Polygon => 137
  | .PolygonAmoy => 80002

/-- chains.ts `parseSupportedChain`: maps a numeric chain id to the enum
member, throwing on every other id. -/
def parseSupportedChain (chainId : Int) : Except String SupportedEvmChain :=
  if chainId = 1 then .ok .Mainnet
  else if chainId = 11155111 then .ok .Sepolia
  else if chainId = 8453 then .ok .Base
  else if chainId = 56 then .ok .Bsc
  else if chainId = 97 then .ok .BscTestnet
  else if chainId = 137 then .ok .Polygon
  else if chainId = 80002 then .ok .PolygonAmoy
  else .error ("Chain Id: " ++ toString chainId ++ " not supported.")

/-- chains.ts `TESTNET_CHAINIDS` = [BscTestnet, PolygonAmoy, Sepolia]. -/
def TESTNET_CHAINIDS : List Int :=
  [97, 80002, 11155111]

/-- JS truthiness applied to the optional `sdkOptions?.sandbox` flag:
`sdkOptions?.sandbox ? sdkOptions.sandbox : false`. -/
def effectiveSandbox (sandbox? : Option Bool) : Bool :=
  match sandbox? with
  | some b => b
  | none => false

/-- services.ts `ZebecCardEvmService` constructor, chain-id validation
slice (lines 246-270): rejects a sandbox/testnet mismatch, then parses
the chain id with `parseSupportedChain`. -/
def evmServiceChainCheck (chainId : Int) (sandbox? : Option Bool) :
    Except String SupportedEvmChain :=
  let sandbox := effectiveSandbox sandbox?
  let isTesnetChainId := TESTNET_CHAINIDS.contains chainId
  if (sandbox && !isTesnetChainId) || (!sandbox && isTesnetChainId) then
    .error "Only testnet chains are allowed in sandbox environment"
  else parseSupportedChain chainId

/-! ## services.ts — the reporting retry loop

`purchaseCardWithUsdc` lines 443-484: `retries = 0`, `delay = 1000`,
`maxRetries = 5`; while `retries < maxRetries` it calls
`apiService.purchaseCard` once per iteration, returning on success; on
failure it rethrows the caught error when `retries >= maxRetries`
(kept verbatim below although the loop guard makes it unreachable),
otherwise increments `retries`, sleeps `delay` milliseconds and doubles
`delay`.  Falling out of the loop throws `Error("Max retries reached")`.
The backend is modelled by `api : Nat → Except String ω` giving the
outcome of each submission: every iteration makes exactly one call and
every failure increments `retries` by one, so the call made when
`retries = i` is submission number `i` (0-based). -/

instance {ε α : Type} [DecidableEq ε] [DecidableEq α] : DecidableEq (Except ε α)
  | .error a, .error b =>
    if h : a = b then .isTrue (by rw [h]) else .isFalse (by intro hh; cases hh; exact h rfl)
  | .error _, .ok _ => .isFalse (by intro h; cases h)
  | .ok _, .error _ => .isFalse (by intro h; cases h)
  | .ok a, .ok b =>
    if h : a = b then .isTrue (by rw [h]) else .isFalse (by intro hh; cases hh; exact h rfl)

/-- Failure surfaced by the reporting loop: either a rethrown
submission error or the generic exhaustion error. -/
inductive ReportError where
  | underlying (e : String)
  | maxRetriesReached
  deriving Repr, DecidableEq

/-- Observable outcome of the reporting loop: the returned order detail
or surfaced error, the `setTimeout` delays awaited in order, and the
number of `purchaseCard` submissions made. -/
structure ReportOutcome (ω : Type) where
  result : Except ReportError ω
  sleeps : List Nat
  calls : Nat
  deriving Repr

/-- The retry loop itself (services.ts lines 447-484).  The extra
`fuel` argument only makes the recursion structural: it is consumed
once per failed iteration, and the loop is always entered with
`fuel = maxRetries` (so `fuel ≥ maxRetries - retries`), under which the
fuel-exhaustion case is unreachable and the function follows the
source's `while (retries < maxRetries)` loop exactly. -/
def reportLoop (api : Nat → Except String ω) (maxRetries : Nat) :
    (fuel retries delay : Nat) → (sleeps : List Nat) → (calls : Nat) → ReportOutcome ω
  | fuel, retries, delay, sleeps, calls =>
    if retries < maxRetries then
      match fuel, api retries with
      | _, .ok order => ⟨.ok order, sleeps, calls + 1⟩
      | fuel' + 1, .error e =>
        if maxRetries ≤ retries then ⟨.error (.underlying e), sleeps, calls + 1⟩
        else reportLoop api maxRetries fuel' (retries + 1) (delay * 2)
          (sleeps ++ [delay]) (calls + 1)
      | 0, .error _ => ⟨.error .maxRetriesReached, sleeps, calls⟩
    else ⟨.error .maxRetriesReached, sleeps, calls⟩

/-- Entry into the retry loop with the initial values of services.ts
lines 443-445 (`retries = 0`, `delay = 1000`, `maxRetries = 5`). -/
def runReport (api : Nat → Except String ω) : ReportOutcome ω :=
  reportLoop api 5 5 0 1000 [] 0

/-! ## services.ts — the purchase orchestrator

`purchaseCardWithUsdc` is embedded as a pure function.  Everything the
method obtains from the outside world is supplied by a `ChainEnv`
record: the liveness of the backend, the program catalog fetched for
the recipient's region, the token/card contract reads (decimals,
balance, card config, purchase record, allowance), the availability of
the buy transaction's receipt, the wall clock, the SHA-256 of an email
(kept abstract as a function), and the per-submission outcome of the
reporting endpoint.  The outcome records the returned value or thrown
error together with the ordered trace of contract interactions, the
backoff sleeps, the number of reporting submissions, and the payload
handed to the backend. -/

/-- types.ts `CardProgram`. -/
structure CardProgram where
  id : String
  type : String
  name : String
  description : String
  isRegional : Bool
  isInternational : Bool
  availableCurrencies : List String
  region : String
  deriving Repr, DecidableEq

/-- types.ts `Quote`; money amounts are exact rationals, instants are
epoch milliseconds. -/
structure Quote where
  id : String
  quoteType : String
  inputToken : String
  outputToken : String
  inputAmount : ℚ
  outputAmount : ℚ
  exchangeRate : ℚ
  platformFee : ℚ
  expiresIn : Int
  timestamp : Int
  token : String
  targetCurrency : String
  amountRequested : ℚ
  pricePerUnitCurrency : ℚ
  totalPrice : ℚ
  deriving Repr, DecidableEq

/-- Card contract `cardConfig()` read: base-unit purchase bounds and
daily limit. -/
structure CardConfig where
  minCardAmount : Nat
  maxCardAmount : Nat
  dailyCardBuyLimit : Nat
  deriving Repr, DecidableEq

/-- Card contract `cardPurchases(addr)` read: the caller's last
purchase instant (unix seconds) and base-unit running daily total. -/
structure CardPurchaseRecord where
  unixInRecord : Nat
  totalCardBoughtPerDay : Nat
  deriving Repr, DecidableEq

/-- Finalized transaction receipt of the buy call (the fields the
orchestrator reads). -/
structure BuyReceipt where
  hash : String
  blockHash : String
  deriving Repr, DecidableEq

/-- types.ts `Money`. -/
structure Money where
  amount : ℚ
  currencyCode : String
  deriving Repr, DecidableEq

/-- types.ts `Deposit` (constructor argument order preserved). -/
structure Deposit where
  chainId : Int
  tokenName : String
  tokenAmount : ℚ
  signature : String
  txHash : String
  blockHash : String
  buyerAddress : String
  userEmail : String
  paymentId : String
  deriving Repr, DecidableEq

/-- types.ts `Receipt` as built by the orchestrator: the originating
quote together with the deposit record. -/
structure ReceiptPayload where
  quote : Quote
  deposit : Deposit
  deriving Repr, DecidableEq

/-- types.ts `OrderCardRequest`: the payload submitted to the backend
order service. -/
structure OrderCardRequest where
  amount : Money
  programId : String
  recipient : Recipient
  receipt : ReceiptPayload
  deriving Repr, DecidableEq

/-- ethers `parseUnits(x.toString(), decimals)`: scales the decimal
value by `10 ^ decimals`, failing when the result is not a nonnegative
integer (negative value or fractional component beyond `decimals`). -/
def parseUnits (x : ℚ) (decimals : Nat) : Option Nat :=
  let scaled := Rat.divInt (x.num * ((10 ^ decimals : Nat) : Int)) x.den
  if scaled.den = 1 ∧ 0 ≤ scaled.num then some scaled.num.toNat else none

/-- ethers `formatUnits(v, decimals)`: a base-unit integer as an exact
decimal token amount. -/
def formatUnits (v : Nat) (decimals : Nat) : ℚ :=
  Rat.divInt (v : Int) ((10 ^ decimals : Nat) : Int)

/-- Errors thrown by `purchaseCardWithUsdc`, one constructor per throw
site, carrying the quantities the corresponding error message reports. -/
inductive PurchaseError where
  | serviceDown
  | programNotSupported
  | invalidEmail (email : String)
  | quoteNotUsdc
  | amountMismatch
  | quoteExpired
  | targetCurrencyUnavailable
  | parseUnitsError
  | notEnoughBalance (current required : ℚ)
  | amountOutOfRange (minAmount maxAmount : ℚ)
  | dailyLimitExceeded (dailyLimit purchaseOfADay : ℚ)
  | noBuyReceipt
  | reportFailed (e : ReportError)
  deriving Repr, DecidableEq

/-- Contract interactions of one purchase attempt, in order.  `approve`
is the ERC-20 approval of the card contract as spender for the given
base-unit amount; `approveWait`/`buyWait` are the finalization waits. -/
inductive ChainAction where
  | readDecimals
  | readBalance
  | readCardConfig
  | readCardPurchases
  | readAllowance
  | approve (amount : Nat)
  | approveWait
  | buyCardDirect (amount : Nat) (cardType : String) (emailHash : String)
  | buyWait
  deriving Repr, DecidableEq

/-- Environment of one purchase attempt: everything
`purchaseCardWithUsdc` obtains from the backend, the chain, and the
clock.  `api i` is the outcome of reporting submission number `i`. -/
structure ChainEnv (ω : Type) where
  chainId : Int
  pingOk : Bool
  availablePrograms : List CardProgram
  decimals : Nat
  usdcBalance : Nat
  cardConfig : CardConfig
  cardPurchases : CardPurchaseRecord
  allowance : Nat
  buyReceipt : Option BuyReceipt
  buyerAddress : String
  nowMs : Nat
  emailHashFn : String → String
  api : Nat → Except String ω

/-- Observable outcome of `purchaseCardWithUsdc`. -/
structure PurchaseOutcome (ω : Type) where
  result : Except PurchaseError (BuyReceipt × ω)
  chainActions : List ChainAction
  sleeps : List Nat
  apiCalls : Nat
  payload : Option OrderCardRequest

/-- services.ts lines 363-372: the day's running total used by the
daily-limit check — the recorded total plus the converted amount when
`areDatesOfSameDay` classifies the recorded last-purchase instant as
the same day as now, the converted amount alone otherwise. -/
def purchaseOfDayTotal (nowMs : Nat) (info : CardPurchaseRecord) (parsedAmount : Nat) : Nat :=
  if areDatesOfSameDay nowMs (info.unixInRecord * 1000) then
    info.totalCardBoughtPerDay + parsedAmount
  else parsedAmount

/-- services.ts `purchaseCardWithUsdc` (lines 292-485), with each
validation, contract interaction and the reporting retry loop in source
order.  The two `Date.now()` reads (expiry check and daily-limit check)
are modelled by the single instant `env.nowMs`.  Gas-limit overrides
are omitted: they are forwarded to the contract binding and never
influence control flow. -/
def purchaseCardWithUsdc (env : ChainEnv ω) (amount : ℚ) (quote : Quote)
    (cardProgramId : String) (recipient : Recipient) : PurchaseOutcome ω :=
  if !env.pingOk then ⟨.error .serviceDown, [], [], 0, none⟩
  else
    match env.availablePrograms.find? (fun p => p.id == cardProgramId) with
    | none => ⟨.error .programNotSupported, [], [], 0, none⟩
    | some cardProgram =>
      if !isEmailValid recipient.emailAddress then
        ⟨.error (.invalidEmail recipient.emailAddress), [], [], 0, none⟩
      else if toLowerStr quote.token ≠ "usdc" then ⟨.error .quoteNotUsdc, [], [], 0, none⟩
      else if quote.amountRequested ≠ formatAmount amount then
        ⟨.error .amountMismatch, [], [], 0, none⟩
      else if quote.expiresIn - 20000 < (env.nowMs : Int) then
        ⟨.error .quoteExpired, [], [], 0, none⟩
      else if !(cardProgram.availableCurrencies.any (fun c => c == quote.targetCurrency)) then
        ⟨.error .targetCurrencyUnavailable, [], [], 0, none⟩
      else
        let decimals := env.decimals
        let acts1 : List ChainAction := [.readDecimals]
        match parseUnits quote.totalPrice decimals with
        | none => ⟨.error .parseUnitsError, acts1, [], 0, none⟩
        | some parsedAmount =>
          let usdcBalance := env.usdcBalance
          let acts2 := acts1 ++ [.readBalance]
          if usdcBalance < parsedAmount then
            ⟨.error (.notEnoughBalance (formatUnits usdcBalance decimals) quote.totalPrice),
              acts2, [], 0, none⟩
          else
            let cardConfig := env.cardConfig
            let acts3 := acts2 ++ [.readCardConfig]
            if parsedAmount < cardConfig.minCardAmount ∨ cardConfig.maxCardAmount < parsedAmount then
              ⟨.error (.amountOutOfRange (formatUnits cardConfig.minCardAmount decimals)
                  (formatUnits cardConfig.maxCardAmount decimals)), acts3, [], 0, none⟩
            else
              let cardPurchaseInfo := env.cardPurchases
              let acts4 := acts3 ++ [.readCardPurchases]
              let purchaseOfDay := purchaseOfDayTotal env.nowMs cardPurchaseInfo parsedAmount
              if cardConfig.dailyCardBuyLimit < purchaseOfDay then
                ⟨.error (.dailyLimitExceeded (formatUnits cardConfig.dailyCardBuyLimit decimals)
                    (formatUnits cardPurchaseInfo.totalCardBoughtPerDay decimals)),
                  acts4, [], 0, none⟩
              else
                let allowance := env.allowance
                let acts5 := acts4 ++ [.readAllowance]
                let acts6 := if allowance < parsedAmount then
                    acts5 ++ [.approve parsedAmount, .approveWait]
                  else acts5
                let cardType := if cardProgram.type = "carbon" then "reloadable"
                  else "non_reloadable"
                let emailHash := env.emailHashFn recipient.emailAddress
                let acts7 := acts6 ++ [.buyCardDirect parsedAmount cardType emailHash, .buyWait]
                match env.buyReceipt with
                | none => ⟨.error .noBuyReceipt, acts7, [], 0, none⟩
                | some buyCardReceipt =>
                  let usdAmount : Money := ⟨quote.outputAmount, quote.targetCurrency⟩
                  let deposit : Deposit :=
                    ⟨env.chainId, "USDC", quote.totalPrice, buyCardReceipt.hash,
                      buyCardReceipt.hash, buyCardReceipt.blockHash, env.buyerAddress,
                      recipient.emailAddress, ""⟩
                  let payload : OrderCardRequest :=
                    ⟨usdAmount, cardProgramId, recipient, ⟨quote, deposit⟩⟩
                  let rep := runReport env.api
                  ⟨match rep.result with
                    | .ok order => .ok (buyCardReceipt, order)
                    | .error e => .error (.reportFailed e),
                    acts7, rep.sleeps, rep.calls, some payload⟩

/-! ## Concrete data for instantiating the theorems -/

/-- Concrete card program: a carbon program selling in USD. -/
def sampleProgram : CardProgram :=
  { id := "prog-1", type := "carbon", name := "Carbon", description := "carbon card",
    isRegional := false, isInternational := true, availableCurrencies := ["USD"],
    region := "Global" }

/-- Concrete USDC quote over 10 USD expiring at epoch-ms
1704672020000 (2024-01-08T00:00:20Z). -/
def sampleQuote : Quote :=
  { id := "q-1", quoteType := "EXACT_OUT", inputToken := "USDC", outputToken := "USD",
    inputAmount := 10, outputAmount := 10, exchangeRate := 1, platformFee := 0,
    expiresIn := 1704672020000, timestamp := 1704671990000, token := "USDC",
    targetCurrency := "USD", amountRequested := 10, pricePerUnitCurrency := 1,
    totalPrice := 10 }

/-- Concrete recipient. -/
def sampleRecipient : Recipient :=
  { participantId := "JohnChamling", firstName := "John", lastName := "Chamling",
    emailAddress := "johnchamling@gmail.com", address1 := "Shittal street",
    address2 := "N/A", city := "Bharatpur", state := "Bagmati", postalCode := "44200",
    countryCode := "NPL", language := "en-US", mobilePhone := "9876543210" }

/-- Concrete environment: service reachable, `sampleProgram` available,
6-decimal token, 1000 USDC balance, purchase bounds 1 to 1000 USDC,
daily limit 5000 USDC, last recorded purchase 2024-01-01T00:00:00Z with
zero daily total, zero allowance, buy receipt available, now =
2024-01-08T00:00:00Z, every reporting submission succeeding with `7`. -/
def sampleEnv : ChainEnv Nat :=
  { chainId := 11155111, pingOk := true, availablePrograms := [sampleProgram],
    decimals := 6, usdcBalance := 1000000000,
    cardConfig := { minCardAmount := 1000000, maxCardAmount := 1000000000,
                    dailyCardBuyLimit := 5000000000 },
    cardPurchases := { unixInRecord := 1704067200, totalCardBoughtPerDay := 0 },
    allowance := 0, buyReceipt := some { hash := "0xaaa", blockHash := "0xbbb" },
    buyerAddress := "0xbuyer", nowMs := 1704672000000,
    emailHashFn := fun _ => "h-email", api := fun _ => .ok 7 }

/-- Environment in which every reporting submission fails. -/
def envAllFail : ChainEnv Nat :=
  { sampleEnv with api := fun _ => .error "boom" }

/-- Environment in which the first two reporting submissions fail and
every later one succeeds with `7`. -/
def envTwoFail : ChainEnv Nat :=
  { sampleEnv with api := fun i => if i < 2 then .error "boom" else .ok 7 }

/-! ## Lemmas about the reporting loop -/

theorem reportLoop_ok {ω : Type} (api : Nat → Except String ω) (mr fuel r d : Nat)
    (s : List Nat) (c : Nat) (w : ω) (hr : r < mr) (ha : api r = .ok w) :
    reportLoop api mr fuel r d s c = ⟨.ok w, s, c + 1⟩ := by
  cases fuel <;> simp [reportLoop, hr, ha]

theorem reportLoop_err {ω : Type} (api : Nat → Except String ω) (mr fuel r d : Nat)
    (s : List Nat) (c : Nat) (e : String) (hr : r < mr) (ha : api r = .error e) :
    reportLoop api mr (fuel + 1) r d s c =
      reportLoop api mr fuel (r + 1) (d * 2) (s ++ [d]) (c + 1) := by
  simp [reportLoop, hr, ha]

theorem reportLoop_exhausted {ω : Type} (api : Nat → Except String ω) (mr fuel r d : Nat)
    (s : List Nat) (c : Nat) (hr : ¬(r < mr)) :
    reportLoop api mr fuel r d s c = ⟨.error .maxRetriesReached, s, c⟩ := by
  unfold reportLoop
  rw [if_neg hr]

/-! ## Claim theorems -/

/-- C1: when all five reporting submissions fail, the orchestrator
makes exactly five submissions — never a sixth — but, contrary to the
claim, the failure it surfaces is the generic "Max retries reached"
error, not a failure carrying the last underlying submission error:
the rethrow guard (`retries >= maxRetries` inside the loop body, the
`underlying` constructor here) is unreachable because the loop guard
requires `retries < maxRetries`.  Evaluated on a concrete environment
whose every submission fails with "boom". -/
theorem purchase_five_report_failures_surface_generic_error :
    (purchaseCardWithUsdc envAllFail 10 sampleQuote "prog-1" sampleRecipient).result =
      .error (.reportFailed .maxRetriesReached) ∧
    (purchaseCardWithUsdc envAllFail 10 sampleQuote "prog-1" sampleRecipient).apiCalls = 5 ∧
    (purchaseCardWithUsdc envAllFail 10 sampleQuote "prog-1" sampleRecipient).sleeps =
      [1000, 2000, 4000, 8000, 16000] := by
  refine ⟨by decide, by decide, by decide⟩

/-- C2: whenever a purchase attempt reaches reporting and the first two
reporting submissions fail while the third succeeds, the orchestrator
sleeps 1000 ms after the first failure and 2000 ms after the second
(backoff starting at one second and doubling), makes exactly three
submissions, and returns the third submission's order detail together
with the buy receipt. -/
theorem purchase_two_report_failures_then_success {ω : Type} (env : ChainEnv ω)
    (amount : ℚ) (quote : Quote) (cardProgramId : String) (recipient : Recipient)
    (cardProgram : CardProgram) (parsedAmount : Nat) (br : BuyReceipt)
    (e0 e1 : String) (w : ω)
    (hping : env.pingOk = true)
    (hprog : env.availablePrograms.find? (fun p => p.id == cardProgramId) = some cardProgram)
    (hemail : isEmailValid recipient.emailAddress = true)
    (htoken : toLowerStr quote.token = "usdc")
    (hamt : quote.amountRequested = formatAmount amount)
    (hexp : ¬(quote.expiresIn - 20000 < (env.nowMs : Int)))
    (hcur : cardProgram.availableCurrencies.any (fun c => c == quote.targetCurrency) = true)
    (hparse : parseUnits quote.totalPrice env.decimals = some parsedAmount)
    (hbal : ¬(env.usdcBalance < parsedAmount))
    (hrange : ¬(parsedAmount < env.cardConfig.minCardAmount ∨
      env.cardConfig.maxCardAmount < parsedAmount))
    (hdaily : ¬(env.cardConfig.dailyCardBuyLimit <
      purchaseOfDayTotal env.nowMs env.cardPurchases parsedAmount))
    (hrcpt : env.buyReceipt = some br)
    (h0 : env.api 0 = .error e0) (h1 : env.api 1 = .error e1) (h2 : env.api 2 = .ok w) :
    (purchaseCardWithUsdc env amount quote cardProgramId recipient).result = .ok (br, w) ∧
    (purchaseCardWithUsdc env amount quote cardProgramId recipient).sleeps = [1000, 2000] ∧
    (purchaseCardWithUsdc env amount quote cardProgramId recipient).apiCalls = 3 := by
  have hrep : runReport env.api = ⟨.ok w, [1000, 2000], 3⟩ := by
    unfold runReport
    rw [reportLoop_err env.api 5 4 0 1000 [] 0 e0 (by omega) h0]
    norm_num
    rw [reportLoop_err env.api 5 3 1 2000 [1000] 1 e1 (by omega) h1]
    norm_num
    rw [reportLoop_ok env.api 5 3 2 4000 [1000, 2000] 2 w (by omega) h2]
  simp only [purchaseCardWithUsdc, hping, hprog, hemail, htoken, hamt, hexp, hcur, hparse,
    hbal, hrange, hdaily, hrcpt, hrep]
  simp

/-- Witness for C2: the theorem applied to the concrete environment
`envTwoFail`. -/
theorem purchase_two_report_failures_then_success_witness :
    (purchaseCardWithUsdc envTwoFail 10 sampleQuote "prog-1" sampleRecipient).result =
      .ok (⟨"0xaaa", "0xbbb"⟩, 7) ∧
    (purchaseCardWithUsdc envTwoFail 10 sampleQuote "prog-1" sampleRecipient).sleeps =
      [1000, 2000] ∧
    (purchaseCardWithUsdc envTwoFail 10 sampleQuote "prog-1" sampleRecipient).apiCalls = 3 :=
  purchase_two_report_failures_then_success envTwoFail 10 sampleQuote "prog-1" sampleRecipient
    sampleProgram 10000000 ⟨"0xaaa", "0xbbb"⟩ "boom" "boom" 7
    rfl rfl (by decide) (by decide) (by decide) (by decide) (by decide) (by decide)
    (by decide) (by decide) (by decide) rfl rfl rfl rfl

/-- C3 counterexample: at the exact boundary where the current time
equals `expiresIn − 20s` the claim demands rejection before any chain
call, but the attempt passes the expiry check and proceeds on chain:
the source rejects only when `expiresIn - 20000 < Date.now()` holds
strictly.  In `sampleEnv` the clock reads exactly
`sampleQuote.expiresIn - 20000`. -/
theorem purchase_expiry_boundary_counterexample :
    (sampleEnv.nowMs : Int) = sampleQuote.expiresIn - 20000 ∧
    (purchaseCardWithUsdc sampleEnv 10 sampleQuote "prog-1" sampleRecipient).result ≠
      .error .quoteExpired ∧
    (purchaseCardWithUsdc sampleEnv 10 sampleQuote "prog-1" sampleRecipient).chainActions ≠
      [] := by
  refine ⟨by decide, by decide, by decide⟩

/-- C3 (amended): provided the checks preceding the expiry check pass
(service up, program found, email valid, quote token USDC, amount
matching), the attempt fails with the quote-expired error exactly when
the current time is strictly greater than `expiresIn − 20s` —
equivalently, the quote passes the expiry check if and only if the
current time is less than or equal to `expiresIn − 20s` — and on
expiry it rejects having made no chain call, no reporting submission
and no backoff sleep. -/
theorem purchase_expiry_rejects_iff_strictly_past_margin {ω : Type} (env : ChainEnv ω)
    (amount : ℚ) (quote : Quote) (cardProgramId : String) (recipient : Recipient)
    (cardProgram : CardProgram)
    (hping : env.pingOk = true)
    (hprog : env.availablePrograms.find? (fun p => p.id == cardProgramId) = some cardProgram)
    (hemail : isEmailValid recipient.emailAddress = true)
    (htoken : toLowerStr quote.token = "usdc")
    (hamt : quote.amountRequested = formatAmount amount) :
    ((purchaseCardWithUsdc env amount quote cardProgramId recipient).result =
        .error .quoteExpired ↔ quote.expiresIn - 20000 < (env.nowMs : Int)) ∧
    (quote.expiresIn - 20000 < (env.nowMs : Int) →
      (purchaseCardWithUsdc env amount quote cardProgramId recipient).chainActions = [] ∧
      (purchaseCardWithUsdc env amount quote cardProgramId recipient).apiCalls = 0 ∧
      (purchaseCardWithUsdc env amount quote cardProgramId recipient).sleeps = []) := by
  by_cases hexp : quote.expiresIn - 20000 < (env.nowMs : Int)
  · simp only [purchaseCardWithUsdc, hping, hprog, hemail, htoken, hamt, hexp,
      Bool.not_true, Bool.not_false, ne_eq, not_true_eq_false, if_true, if_false,
      ite_true, ite_false, Bool.false_eq_true]
    simp
  · simp only [purchaseCardWithUsdc, hping, hprog, hemail, htoken, hamt, hexp,
      Bool.not_true, Bool.not_false, ne_eq, not_true_eq_false, if_true, if_false,
      ite_true, ite_false, Bool.false_eq_true]
    simp only [iff_false, false_implies, and_true]
    intro hres
    repeat' (first | split at hres | simp at hres)

/-- Witness for C3's amended theorem: applied to an environment whose
clock is one millisecond past the safety margin, giving the
quote-expired rejection with an empty chain trace. -/
theorem purchase_expiry_rejects_witness :
    (purchaseCardWithUsdc { sampleEnv with nowMs := 1704672000001 } 10 sampleQuote
        "prog-1" sampleRecipient).result = .error .quoteExpired ∧
    (purchaseCardWithUsdc { sampleEnv with nowMs := 1704672000001 } 10 sampleQuote
        "prog-1" sampleRecipient).chainActions = [] := by
  have h := purchase_expiry_rejects_iff_strictly_past_margin
    { sampleEnv with nowMs := 1704672000001 } 10 sampleQuote "prog-1" sampleRecipient
    sampleProgram rfl rfl (by decide) (by decide) (by decide)
  exact ⟨h.1.mpr (by decide), (h.2 (by decide)).1⟩

/-- C6: provided the attempt reaches the currency check (service up,
program found, email valid, token USDC, amount matching, quote not
expired), a quote whose target currency is not among the chosen
program's available currencies is rejected with a validation error and
with zero on-chain transactions, zero reporting submissions and no
sleeps. -/
theorem purchase_currency_unavailable_no_chain_calls {ω : Type} (env : ChainEnv ω)
    (amount : ℚ) (quote : Quote) (cardProgramId : String) (recipient : Recipient)
    (cardProgram : CardProgram)
    (hping : env.pingOk = true)
    (hprog : env.availablePrograms.find? (fun p => p.id == cardProgramId) = some cardProgram)
    (hemail : isEmailValid recipient.emailAddress = true)
    (htoken : toLowerStr quote.token = "usdc")
    (hamt : quote.amountRequested = formatAmount amount)
    (hexp : ¬(quote.expiresIn - 20000 < (env.nowMs : Int)))
    (hcur : cardProgram.availableCurrencies.any (fun c => c == quote.targetCurrency) = false) :
    (purchaseCardWithUsdc env amount quote cardProgramId recipient).result =
      .error .targetCurrencyUnavailable ∧
    (purchaseCardWithUsdc env amount quote cardProgramId recipient).chainActions = [] ∧
    (purchaseCardWithUsdc env amount quote cardProgramId recipient).apiCalls = 0 ∧
    (purchaseCardWithUsdc env amount quote cardProgramId recipient).sleeps = [] := by
  simp only [purchaseCardWithUsdc, hping, hprog, hemail, htoken, hamt, hexp, hcur,
    Bool.not_true, Bool.not_false, ne_eq, not_true_eq_false, if_true, if_false,
    ite_true, ite_false, Bool.false_eq_true]
  simp

/-- Witness for C6: a program selling only EUR against a USD quote. -/
theorem purchase_currency_unavailable_witness :
    (purchaseCardWithUsdc
        { sampleEnv with
            availablePrograms := [{ sampleProgram with availableCurrencies := ["EUR"] }] }
        10 sampleQuote "prog-1" sampleRecipient).result =
      .error .targetCurrencyUnavailable ∧
    (purchaseCardWithUsdc
        { sampleEnv with
            availablePrograms := [{ sampleProgram with availableCurrencies := ["EUR"] }] }
        10 sampleQuote "prog-1" sampleRecipient).chainActions = [] ∧
    (purchaseCardWithUsdc
        { sampleEnv with
            availablePrograms := [{ sampleProgram with availableCurrencies := ["EUR"] }] }
        10 sampleQuote "prog-1" sampleRecipient).apiCalls = 0 ∧
    (purchaseCardWithUsdc
        { sampleEnv with
            availablePrograms := [{ sampleProgram with availableCurrencies := ["EUR"] }] }
        10 sampleQuote "prog-1" sampleRecipient).sleeps = [] :=
  purchase_currency_unavailable_no_chain_calls _ 10 sampleQuote "prog-1" sampleRecipient
    { sampleProgram with availableCurrencies := ["EUR"] }
    rfl rfl (by decide) (by decide) (by decide) (by decide) (by decide)

/-- C5: for every attempt that reaches the approval step (all prior
validations pass), the chain trace is exactly the five reads followed
by an approval — present if and only if the current allowance is
strictly below the converted amount, for exactly the converted amount,
and finalized (`approveWait`) — and only then the buy call and its
finalization wait.  In particular no approval is submitted when the
allowance already covers the amount, and the buy transaction is
invoked only after the approval's finalization wait. -/
theorem purchase_approval_iff_allowance_insufficient {ω : Type} (env : ChainEnv ω)
    (amount : ℚ) (quote : Quote) (cardProgramId : String) (recipient : Recipient)
    (cardProgram : CardProgram) (parsedAmount : Nat)
    (hping : env.pingOk = true)
    (hprog : env.availablePrograms.find? (fun p => p.id == cardProgramId) = some cardProgram)
    (hemail : isEmailValid recipient.emailAddress = true)
    (htoken : toLowerStr quote.token = "usdc")
    (hamt : quote.amountRequested = formatAmount amount)
    (hexp : ¬(quote.expiresIn - 20000 < (env.nowMs : Int)))
    (hcur : cardProgram.availableCurrencies.any (fun c => c == quote.targetCurrency) = true)
    (hparse : parseUnits quote.totalPrice env.decimals = some parsedAmount)
    (hbal : ¬(env.usdcBalance < parsedAmount))
    (hrange : ¬(parsedAmount < env.cardConfig.minCardAmount ∨
      env.cardConfig.maxCardAmount < parsedAmount))
    (hdaily : ¬(env.cardConfig.dailyCardBuyLimit <
      purchaseOfDayTotal env.nowMs env.cardPurchases parsedAmount)) :
    (purchaseCardWithUsdc env amount quote cardProgramId recipient).chainActions =
      [.readDecimals, .readBalance, .readCardConfig, .readCardPurchases, .readAllowance] ++
      (if env.allowance < parsedAmount then [.approve parsedAmount, .approveWait] else []) ++
      [.buyCardDirect parsedAmount
          (if cardProgram.type = "carbon" then "reloadable" else "non_reloadable")
          (env.emailHashFn recipient.emailAddress),
        .buyWait] := by
  simp only [purchaseCardWithUsdc, hping, hprog, hemail, htoken, hamt, hexp, hcur, hparse,
    hbal, hrange, hdaily, Bool.not_true, Bool.not_false, ne_eq, not_true_eq_false,
    if_true, if_false, ite_true, ite_false, Bool.false_eq_true]
  cases hb : env.buyReceipt <;>
    by_cases hal : env.allowance < parsedAmount <;>
      simp [hb, hal]

/-- Witness for C5: in `sampleEnv` the allowance (0) is below the
converted amount (10 USDC = 10000000 base units), so the trace carries
the approval for exactly 10000000 and its wait before the buy call. -/
theorem purchase_approval_iff_allowance_insufficient_witness :
    (purchaseCardWithUsdc sampleEnv 10 sampleQuote "prog-1" sampleRecipient).chainActions =
      [.readDecimals, .readBalance, .readCardConfig, .readCardPurchases, .readAllowance,
       .approve 10000000, .approveWait,
       .buyCardDirect 10000000 "reloadable" "h-email", .buyWait] := by
  have h := purchase_approval_iff_allowance_insufficient sampleEnv 10 sampleQuote "prog-1"
    sampleRecipient sampleProgram 10000000 rfl rfl (by decide) (by decide) (by decide)
    (by decide) (by decide) (by decide) (by decide) (by decide) (by decide)
  simpa using h

/-- C7: for every attempt that reaches the range check (all prior
validations pass, the amount parsed, the balance sufficient), a
`CardPurchaseAmountOutOfRangeError` is thrown if and only if the
converted amount is strictly below the program's configured minimum or
strictly above its configured maximum; amounts equal to either bound
pass the check. -/
theorem purchase_range_error_iff_outside_bounds {ω : Type} (env : ChainEnv ω)
    (amount : ℚ) (quote : Quote) (cardProgramId : String) (recipient : Recipient)
    (cardProgram : CardProgram) (parsedAmount : Nat)
    (hping : env.pingOk = true)
    (hprog : env.availablePrograms.find? (fun p => p.id == cardProgramId) = some cardProgram)
    (hemail : isEmailValid recipient.emailAddress = true)
    (htoken : toLowerStr quote.token = "usdc")
    (hamt : quote.amountRequested = formatAmount amount)
    (hexp : ¬(quote.expiresIn - 20000 < (env.nowMs : Int)))
    (hcur : cardProgram.availableCurrencies.any (fun c => c == quote.targetCurrency) = true)
    (hparse : parseUnits quote.totalPrice env.decimals = some parsedAmount)
    (hbal : ¬(env.usdcBalance < parsedAmount)) :
    ((∃ lo hi, (purchaseCardWithUsdc env amount quote cardProgramId recipient).result =
        .error (.amountOutOfRange lo hi)) ↔
      (parsedAmount < env.cardConfig.minCardAmount ∨
        env.cardConfig.maxCardAmount < parsedAmount)) := by
  simp only [purchaseCardWithUsdc, hping, hprog, hemail, htoken, hamt, hexp, hcur, hparse,
    hbal, Bool.not_true, Bool.not_false, ne_eq, not_true_eq_false, if_true, if_false,
    ite_true, ite_false, Bool.false_eq_true]
  by_cases hr : parsedAmount < env.cardConfig.minCardAmount ∨
      env.cardConfig.maxCardAmount < parsedAmount
  · simp [hr]
  · simp only [hr, iff_false]
    rintro ⟨lo, hi, hres⟩
    repeat' (first | contradiction | split at hres | simp at hres)

/-- Witness for C7: a program whose minimum (20 USDC) exceeds the
converted amount (10 USDC) yields the out-of-range error. -/
theorem purchase_range_error_witness :
    ∃ lo hi,
      (purchaseCardWithUsdc
          { sampleEnv with
              cardConfig := { minCardAmount := 20000000, maxCardAmount := 1000000000,
                              dailyCardBuyLimit := 5000000000 } }
          10 sampleQuote "prog-1" sampleRecipient).result =
        .error (.amountOutOfRange lo hi) :=
  (purchase_range_error_iff_outside_bounds
      { sampleEnv with
          cardConfig := { minCardAmount := 20000000, maxCardAmount := 1000000000,
                          dailyCardBuyLimit := 5000000000 } }
      10 sampleQuote "prog-1" sampleRecipient sampleProgram 10000000
      rfl rfl (by decide) (by decide) (by decide) (by decide) (by decide) (by decide)
      (by decide)).mpr (by decide)

/-- C4: the daily-limit check's same-day classifier compares day of
WEEK (`getUTCDay`), month and year — not day of month: the UTC
instants 2024-01-01T00:00:00Z and 2024-01-08T00:00:00Z (both Mondays,
seven days apart) are classified as the same calendar day although
their days of month are 1 and 8, and the running total used by the
check consequently adds the recorded daily total (95 + 10) where the
claim requires a reset to the converted amount alone (10). -/
theorem areDatesOfSameDay_compares_weekday_not_date :
    areDatesOfSameDay 1704672000000 1704067200000 = true ∧
    sameCalendarDayUTC 1704672000000 1704067200000 = false ∧
    getUTCDate 1704672000000 = 8 ∧ getUTCDate 1704067200000 = 1 ∧
    purchaseOfDayTotal 1704672000000 ⟨1704067200, 95⟩ 10 = 105 := by
  refine ⟨by decide, by decide, by decide, by decide, by decide⟩

/-- C8 counterexample: `Recipient.create` accepts a 26-character state
(the claim's stated bound is 1 to 20) and accepts a present-but-empty
address line 2 (the claim demands 1 to 50 whenever present): at both
inputs construction succeeds although the claim's constraint list
(`claimedRecipientValid`) rejects them. -/
theorem recipientCreate_claim_counterexample :
    (recipientCreate "JohnChamling" "John" "Chamling" "johnchamling@gmail.com"
        "9876543210" "en-US" "Bharatpur" "abcdefghijklmnopqrstuvwxyz" "44200" "NPL"
        "Shittal street" none =
      .ok { participantId := "JohnChamling", firstName := "John", lastName := "Chamling",
            emailAddress := "johnchamling@gmail.com", address1 := "Shittal street",
            address2 := "N/A", city := "Bharatpur", state := "abcdefghijklmnopqrstuvwxyz",
            postalCode := "44200", countryCode := "NPL", language := "en-US",
            mobilePhone := "9876543210" } ∧
      claimedRecipientValid "JohnChamling" "John" "Chamling" "johnchamling@gmail.com"
        "9876543210" "en-US" "Bharatpur" "abcdefghijklmnopqrstuvwxyz" "44200" "NPL"
        "Shittal street" none = false) ∧
    (recipientCreate "JohnChamling" "John" "Chamling" "johnchamling@gmail.com"
        "9876543210" "en-US" "Bharatpur" "Bagmati" "44200" "NPL"
        "Shittal street" (some "") =
      .ok { participantId := "JohnChamling", firstName := "John", lastName := "Chamling",
            emailAddress := "johnchamling@gmail.com", address1 := "Shittal street",
            address2 := "", city := "Bharatpur", state := "Bagmati",
            postalCode := "44200", countryCode := "NPL", language := "en-US",
            mobilePhone := "9876543210" } ∧
      claimedRecipientValid "JohnChamling" "John" "Chamling" "johnchamling@gmail.com"
        "9876543210" "en-US" "Bharatpur" "Bagmati" "44200" "NPL"
        "Shittal street" (some "") = false) := by
  refine ⟨⟨by decide, by decide⟩, ⟨by decide, by decide⟩⟩

set_option maxHeartbeats 1000000 in
/-- C8 (amended): `Recipient.create` produces a `Recipient` exactly
when every source constraint holds — participant id 1-20 and
alphanumeric, first and last name 1-50, email 1-80 and format-valid,
language nonempty, mobile phone 1-20, city 1-35, state 1-50 (not the
claim's 1-20), supported ISO-3166 alpha-3 country code, postal code
1-20, address line 1 1-50, and address line 2 bounded by 50 only when
present and nonempty (a present empty string is treated as absent) —
and otherwise throws the `ValidationError` of the first violated
check, with no partial construction. -/
theorem recipientCreate_ok_iff_valid (participantId firstName lastName emailAddress
    mobilePhone language city state postalCode countryCode address1 : String)
    (address2 : Option String) :
    (∃ r, recipientCreate participantId firstName lastName emailAddress mobilePhone language
        city state postalCode countryCode address1 address2 = .ok r) ↔
      recipientValid participantId firstName lastName emailAddress mobilePhone language
        city state postalCode countryCode address1 address2 = true := by
  unfold recipientCreate recipientValid
  cases address2 with
  | none =>
    dsimp only
    generalize hasLen participantId 1 (some 20) = b1
    generalize isAlphaNumeric participantId = b2
    generalize hasLen firstName 1 (some 50) = b3
    generalize hasLen lastName 1 (some 50) = b4
    generalize hasLen emailAddress 1 (some 80) = b5
    generalize isEmailValid emailAddress = b6
    generalize hasLen mobilePhone 1 (some 20) = b7
    generalize hasLen city 1 (some 35) = b8
    generalize hasLen state 1 (some 50) = b9
    generalize ALL_COUNTRY_CODES.contains countryCode = b10
    generalize hasLen postalCode 1 (some 20) = b11
    generalize hasLen address1 1 (some 50) = b12
    by_cases hl : language = ""
    · simp only [hl, eq_self_iff_true, if_true, if_false, decide_True, decide_False, Bool.not_false, Bool.not_true, Bool.false_eq_true]
      cases b1 with
      | false => simp
      | true =>
        cases b2 with
        | false => simp
        | true =>
          cases b3 with
          | false => simp
          | true =>
            cases b4 with
            | false => simp
            | true =>
              cases b5 with
              | false => simp
              | true =>
                cases b6 with
                | false => simp
                | true =>
                  simp
    · simp only [hl, eq_self_iff_true, if_true, if_false, decide_True, decide_False, Bool.not_false, Bool.not_true, Bool.false_eq_true]
      cases b1 with
      | false => simp
      | true =>
        cases b2 with
        | false => simp
        | true =>
          cases b3 with
          | false => simp
          | true =>
            cases b4 with
            | false => simp
            | true =>
              cases b5 with
              | false => simp
              | true =>
                cases b6 with
                | false => simp
                | true =>
                  cases b7 with
                  | false => simp
                  | true =>
                    cases b8 with
                    | false => simp
                    | true =>
                      cases b9 with
                      | false => simp
                      | true =>
                        cases b10 with
                        | false => simp
                        | true =>
                          cases b11 with
                          | false => simp
                          | true =>
                            cases b12 with
                            | false => simp
                            | true =>
                              simp
  | some a2 =>
    dsimp only
    generalize hasLen participantId 1 (some 20) = b1
    generalize isAlphaNumeric participantId = b2
    generalize hasLen firstName 1 (some 50) = b3
    generalize hasLen lastName 1 (some 50) = b4
    generalize hasLen emailAddress 1 (some 80) = b5
    generalize isEmailValid emailAddress = b6
    generalize hasLen mobilePhone 1 (some 20) = b7
    generalize hasLen city 1 (some 35) = b8
    generalize hasLen state 1 (some 50) = b9
    generalize ALL_COUNTRY_CODES.contains countryCode = b10
    generalize hasLen postalCode 1 (some 20) = b11
    generalize hasLen address1 1 (some 50) = b12
    generalize ((a2 ≠ "" && !hasLen a2 1 (some 50)) : Bool) = b13
    by_cases hl : language = ""
    · simp only [hl, eq_self_iff_true, if_true, if_false, decide_True, decide_False, Bool.not_false, Bool.not_true, Bool.false_eq_true]
      cases b1 with
      | false => simp
      | true =>
        cases b2 with
        | false => simp
        | true =>
          cases b3 with
          | false => simp
          | true =>
            cases b4 with
            | false => simp
            | true =>
              cases b5 with
              | false => simp
              | true =>
                cases b6 with
                | false => simp
                | true =>
                  simp
    · simp only [hl, eq_self_iff_true, if_true, if_false, decide_True, decide_False, Bool.not_false, Bool.not_true, Bool.false_eq_true]
      cases b1 with
      | false => simp
      | true =>
        cases b2 with
        | false => simp
        | true =>
          cases b3 with
          | false => simp
          | true =>
            cases b4 with
            | false => simp
            | true =>
              cases b5 with
              | false => simp
              | true =>
                cases b6 with
                | false => simp
                | true =>
                  cases b7 with
                  | false => simp
                  | true =>
                    cases b8 with
                    | false => simp
                    | true =>
                      cases b9 with
                      | false => simp
                      | true =>
                        cases b10 with
                        | false => simp
                        | true =>
                          cases b11 with
                          | false => simp
                          | true =>
                            cases b12 with
                            | false => simp
                            | true =>
                              cases b13 with
                              | false => simp
                              | true =>
                                simp

/-- C9: the `ZebecCardEvmService` constructor's chain validation
succeeds exactly for the seven supported chains with testnet membership
matching the sandbox flag: with sandbox true exactly Sepolia
(11155111), BscTestnet (97) and PolygonAmoy (80002); with sandbox
false or unset exactly Mainnet (1), Base (8453), Bsc (56) and Polygon
(137); every other combination throws. -/
theorem evmServiceChainCheck_acceptance (chainId : Int) (sandbox? : Option Bool) :
    (∃ c, evmServiceChainCheck chainId sandbox? = .ok c) ↔
      ((effectiveSandbox sandbox? = true ∧
          (chainId = 11155111 ∨ chainId = 97 ∨ chainId = 80002)) ∨
        (effectiveSandbox sandbox? = false ∧
          (chainId = 1 ∨ chainId = 8453 ∨ chainId = 56 ∨ chainId = 137))) := by
  rcases hs : effectiveSandbox sandbox? with _ | _ <;>
    simp only [evmServiceChainCheck, hs, TESTNET_CHAINIDS, parseSupportedChain] <;>
    by_cases h1 : chainId = 1 <;> by_cases h2 : chainId = 11155111 <;>
    by_cases h3 : chainId = 8453 <;> by_cases h4 : chainId = 56 <;>
    by_cases h5 : chainId = 97 <;> by_cases h6 : chainId = 137 <;>
    by_cases h7 : chainId = 80002 <;>
    simp_all

theorem recipientCreate_none_gives_NA (participantId firstName lastName emailAddress
    mobilePhone language city state postalCode countryCode address1 : String) (r : Recipient)
    (hr : recipientCreate participantId firstName lastName emailAddress mobilePhone language
      city state postalCode countryCode address1 none = .ok r) :
    r.address2 = "N/A" := by
  unfold recipientCreate at hr
  revert hr
  dsimp only
  generalize hasLen participantId 1 (some 20) = b1
  generalize isAlphaNumeric participantId = b2
  generalize hasLen firstName 1 (some 50) = b3
  generalize hasLen lastName 1 (some 50) = b4
  generalize hasLen emailAddress 1 (some 80) = b5
  generalize isEmailValid emailAddress = b6
  generalize hasLen mobilePhone 1 (some 20) = b7
  generalize hasLen city 1 (some 35) = b8
  generalize hasLen state 1 (some 50) = b9
  generalize ALL_COUNTRY_CODES.contains countryCode = b10
  generalize hasLen postalCode 1 (some 20) = b11
  generalize hasLen address1 1 (some 50) = b12
  by_cases hl : language = "" <;> simp only [hl, eq_self_iff_true, if_true, if_false, decide_True, decide_False, Bool.not_false, Bool.not_true, Bool.false_eq_true] <;> intro hr
  case pos =>
    cases b1 with
    | false => simp at hr
    | true =>
      cases b2 with
      | false => simp at hr
      | true =>
        cases b3 with
        | false => simp at hr
        | true =>
          cases b4 with
          | false => simp at hr
          | true =>
            cases b5 with
            | false => simp at hr
            | true =>
              cases b6 with
              | false => simp at hr
              | true =>
                simp at hr
  case neg =>
    cases b1 with
    | false => simp at hr
    | true =>
      cases b2 with
      | false => simp at hr
      | true =>
        cases b3 with
        | false => simp at hr
        | true =>
          cases b4 with
          | false => simp at hr
          | true =>
            cases b5 with
            | false => simp at hr
            | true =>
              cases b6 with
              | false => simp at hr
              | true =>
                cases b7 with
                | false => simp at hr
                | true =>
                  cases b8 with
                  | false => simp at hr
                  | true =>
                    cases b9 with
                    | false => simp at hr
                    | true =>
                      cases b10 with
                      | false => simp at hr
                      | true =>
                        cases b11 with
                        | false => simp at hr
                        | true =>
                          cases b12 with
                          | false => simp at hr
                          | true =>
                            simp at hr; subst hr; rfl

/-- C10: when the optional address line 2 is omitted, the Recipient
produced by `Recipient.create` carries the literal string "N/A" in its
`address2` field, and for any purchase attempt that reaches payload
construction the order request submitted to the backend forwards that
recipient value — hence that "N/A" — unchanged. -/
theorem recipient_address2_defaults_to_NA (participantId firstName lastName emailAddress
    mobilePhone language city state postalCode countryCode address1 : String) (r : Recipient)
    (hr : recipientCreate participantId firstName lastName emailAddress mobilePhone language
      city state postalCode countryCode address1 none = .ok r)
    {ω : Type} (env : ChainEnv ω) (amount : ℚ) (quote : Quote) (cardProgramId : String)
    (cardProgram : CardProgram) (parsedAmount : Nat) (br : BuyReceipt)
    (hping : env.pingOk = true)
    (hprog : env.availablePrograms.find? (fun p => p.id == cardProgramId) = some cardProgram)
    (hemail : isEmailValid r.emailAddress = true)
    (htoken : toLowerStr quote.token = "usdc")
    (hamt : quote.amountRequested = formatAmount amount)
    (hexp : ¬(quote.expiresIn - 20000 < (env.nowMs : Int)))
    (hcur : cardProgram.availableCurrencies.any (fun c => c == quote.targetCurrency) = true)
    (hparse : parseUnits quote.totalPrice env.decimals = some parsedAmount)
    (hbal : ¬(env.usdcBalance < parsedAmount))
    (hrange : ¬(parsedAmount < env.cardConfig.minCardAmount ∨
      env.cardConfig.maxCardAmount < parsedAmount))
    (hdaily : ¬(env.cardConfig.dailyCardBuyLimit <
      purchaseOfDayTotal env.nowMs env.cardPurchases parsedAmount))
    (hrcpt : env.buyReceipt = some br) :
    r.address2 = "N/A" ∧
    ∃ p, (purchaseCardWithUsdc env amount quote cardProgramId r).payload = some p ∧
      p.recipient = r := by
  have hna : r.address2 = "N/A" :=
    recipientCreate_none_gives_NA participantId firstName lastName emailAddress mobilePhone
      language city state postalCode countryCode address1 r hr
  refine ⟨hna, ?_⟩
  simp only [purchaseCardWithUsdc, hping, hprog, hemail, htoken, hamt, hexp, hcur, hparse,
    hbal, hrange, hdaily, hrcpt, Bool.not_true, Bool.not_false, ne_eq, not_true_eq_false,
    if_true, if_false, ite_true, ite_false, Bool.false_eq_true]
  exact ⟨_, rfl, rfl⟩

/-- Witness for C10: the sample recipient constructed without an
address line 2 carries "N/A", and the payload of the sample purchase
forwards it. -/
theorem recipient_address2_defaults_to_NA_witness :
    sampleRecipient.address2 = "N/A" ∧
    ∃ p, (purchaseCardWithUsdc sampleEnv 10 sampleQuote "prog-1" sampleRecipient).payload =
        some p ∧ p.recipient = sampleRecipient :=
  recipient_address2_defaults_to_NA "JohnChamling" "John" "Chamling"
    "johnchamling@gmail.com" "9876543210" "en-US" "Bharatpur" "Bagmati" "44200" "NPL"
    "Shittal street" sampleRecipient (by decide) sampleEnv 10 sampleQuote "prog-1"
    sampleProgram 10000000 ⟨"0xaaa", "0xbbb"⟩ rfl rfl (by decide) (by decide) (by decide)
    (by decide) (by decide) (by decide) (by decide) (by decide) (by decide) rfl

end ZebecCard
